import Mathlib

/-!
Verification of the forms package (`src/packages/forms/src/index.tsx`).

The development shallowly embeds the pure data flow of the module:

* `setCoercion` (lines 81-96): the coercion dispatcher that augments a
  react-hook-form validation configuration with a value transform.
* the server-errors context value computed by `Form` (lines 188-203).
* the pure part of `useErrorStyles` (lines 32-67): the `setError` effect for
  server errors and the className/style switching on validation errors.

JavaScript objects are embedded as structures whose optional keys are
`Option` fields (`none` = key absent / value nullish); JavaScript truthiness
is made explicit (`jsTruthy`, `jsTruthyStr`); in-place mutation of the
validation object is embedded as explicit state passing (the function
returns the updated configuration).  The module `./coercion` is not part of
the sources, so its three exports (`valueAsProps`, `COERCION_FUNCTIONS`,
`inputTypeToDataTypeMapping`) are modelled from the spec.
-/

/-- Names of the data types a coercion directive can request.  These are the
values of the spec's Coercion Directive Table: Boolean, Float, JSON,
DateTime. -/
inductive DataType where
  | Boolean
  | Float
  | Json
  | DateTime
deriving DecidableEq, Repr

/-- A `setValueAs` transform held in a validation configuration: either one of
the statically known coercion functions (identified by its data type, since
no claim depends on the string-parsing semantics of the functions
themselves), or an arbitrary caller-supplied custom function (identified
opaquely). -/
inductive Transform where
  | coercionFn (d : DataType)
  | custom (id : Nat)
deriving DecidableEq, Repr

/-- Modelled from the spec: `COERCION_FUNCTIONS`, the Coercion Directive
Table of the missing `./coercion` module.  A static mapping from directive
name to its pure transform function; every directive maps to exactly one
function.  The functions are represented opaquely by their directive tag. -/
def COERCION_FUNCTIONS (d : DataType) : Transform := Transform.coercionFn d

/-- Modelled from the spec: `valueAsProps` of the missing `./coercion`
module.  Maps each explicit directive flag key of a validation configuration
(the keys iterated by `Object.keys(valueAsProps)` in `setCoercion`) to its
directive, in declaration order Boolean, Float, JSON, DateTime. -/
def valueAsProps : List (String × DataType) :=
  [("valueAsBoolean", DataType.Boolean),
   ("valueAsFloat", DataType.Float),
   ("valueAsJSON", DataType.Json),
   ("valueAsDateTime", DataType.DateTime)]

/-- Modelled from the spec: `inputTypeToDataTypeMapping` of the missing
`./coercion` module.  A static mapping from a subset of HTML input types
(checkbox, date/time) to a default directive, used only when no explicit
directive is set and no other coercion is configured. -/
def inputTypeToDataTypeMapping : String → Option DataType
  | "checkbox" => some DataType.Boolean
  | "date" => some DataType.DateTime
  | "datetime-local" => some DataType.DateTime
  | _ => none

/-- The validation configuration (`RedwoodRegisterOptions`, index.tsx lines
74-79): react-hook-form register options extended with the four explicit
directive flags.  Each JavaScript key is an `Option` field (`none` = key
absent); `extraProps` carries any further keys present on the object (the
object is duck-typed, so a caller can attach keys outside the declared
ones). -/
structure RedwoodRegisterOptions where
  valueAsNumber : Option Bool := none
  valueAsDate : Option Bool := none
  setValueAs : Option Transform := none
  valueAsBoolean : Option Bool := none
  valueAsFloat : Option Bool := none
  valueAsJSON : Option Bool := none
  valueAsDateTime : Option Bool := none
  extraProps : List String := []
deriving DecidableEq, Repr

/-- JavaScript truthiness of an optional boolean key: truthy iff present and
`true`. -/
def jsTruthy : Option Bool → Bool
  | none => false
  | some b => b

/-- JavaScript truthiness of an optional string key: truthy iff present and
non-empty. -/
def jsTruthyStr : Option String → Bool
  | none => false
  | some s => !(s == "")

/-- The JavaScript `in` operator on a validation configuration: whether the
given key is present on the object. -/
def hasProp (validation : RedwoodRegisterOptions) : String → Bool
  | "valueAsBoolean" => validation.valueAsBoolean.isSome
  | "valueAsFloat" => validation.valueAsFloat.isSome
  | "valueAsJSON" => validation.valueAsJSON.isSome
  | "valueAsDateTime" => validation.valueAsDateTime.isSome
  | s => validation.extraProps.contains s

/-- The coercion dispatcher `setCoercion` (index.tsx lines 81-96).  The
source mutates `validation` in place; the embedding returns the updated
configuration.  Guard fidelity: the first branch tests JavaScript truthiness
of `valueAsNumber`/`valueAsDate` and of the function `setValueAs` (a
function value is always truthy, hence `isSome`); the directive search is
`Object.keys(valueAsProps).find((k) => k in validation)` followed by the two
table lookups; the type branches each first test truthiness of `type`. -/
def setCoercion (validation : RedwoodRegisterOptions) (type : Option String) :
    RedwoodRegisterOptions :=
  if jsTruthy validation.valueAsNumber || jsTruthy validation.valueAsDate
      || validation.setValueAs.isSome then
    validation
  else
    match valueAsProps.find? (fun kv => hasProp validation kv.fst) with
    | some kv => { validation with setValueAs := some (COERCION_FUNCTIONS kv.snd) }
    | none =>
      if jsTruthyStr type && (type == some ("number")) then
        { validation with valueAsNumber := some true }
      else if jsTruthyStr type && (type.bind inputTypeToDataTypeMapping).isSome then
        { validation with
            setValueAs := (type.bind inputTypeToDataTypeMapping).map COERCION_FUNCTIONS }
      else
        validation

/-- Whether the configuration carries the explicit directive flag for the
given data type (key presence, not truthiness). -/
def carries (validation : RedwoodRegisterOptions) : DataType → Bool
  | DataType.Boolean => validation.valueAsBoolean.isSome
  | DataType.Float => validation.valueAsFloat.isSome
  | DataType.Json => validation.valueAsJSON.isSome
  | DataType.DateTime => validation.valueAsDateTime.isSome

/-- Association-list lookup embedding a JavaScript property access
`obj[key]` on a string-keyed map (and `get(errors, name)` on the errors
object, which the embedding keys by full field path). -/
def jsGet {α : Type} (m : List (String × α)) (k : String) : Option α :=
  (m.find? (fun kv => kv.fst == k)).map Prod.snd

/-- Per-field server error messages: the value type of `ServerErrorsContext`
(index.tsx lines 155-159), a map from field name to message string. -/
abbrev ServerErrors := List (String × String)

/-- The `exception` object of a GraphQL error's extensions; `messages` is its
optional per-field message map. -/
structure GraphQLException where
  messages : Option ServerErrors := none
deriving DecidableEq, Repr

/-- The `extensions` object of a GraphQL error. -/
structure GraphQLExtensions where
  exception : Option GraphQLException := none
deriving DecidableEq, Repr

/-- One element of the `graphQLErrors` array of the error envelope. -/
structure GraphQLError where
  extensions : Option GraphQLExtensions := none
deriving DecidableEq, Repr

/-- The `error` prop accepted by `Form`; `graphQLErrors` is `none` when the
object has no such key (e.g. a plain `Error`). -/
structure FormErrorProp where
  graphQLErrors : Option (List GraphQLError) := none
deriving DecidableEq, Repr

/-- The value `Form` passes to `ServerErrorsContext.Provider` (index.tsx
lines 195-199): the expression
`errorProps?.graphQLErrors[0]?.extensions?.exception?.messages || {}`.
Optional chaining guards `errorProps` itself and every step after
`graphQLErrors[0]`, but not the indexing `graphQLErrors[0]`: when
`errorProps` is non-nullish and has no `graphQLErrors` array, indexing
`undefined` raises a TypeError, embedded as `Except.error`. -/
def serverErrorsContextValue : Option FormErrorProp → Except Unit ServerErrors
  | none => Except.ok []
  | some errorProps =>
    match errorProps.graphQLErrors with
    | none => Except.error ()
    | some gqlErrors =>
      Except.ok
        ((((gqlErrors.head?.bind GraphQLError.extensions).bind
            GraphQLExtensions.exception).bind GraphQLException.messages).getD [])

/-- A react-hook-form field error object: a `type` tag plus an optional
message. -/
structure RHFFieldError where
  type : String
  message : Option String := none
deriving DecidableEq, Repr

/-- The props of `useErrorStyles` (index.tsx lines 24-30). -/
structure UseErrorStylesProps where
  name : String
  errorClassName : Option String := none
  errorStyle : Option (List (String × String)) := none
  className : Option String := none
  style : Option (List (String × String)) := none
deriving DecidableEq, Repr

/-- What `useErrorStyles` produces: the returned `className`/`style` pair and
the `setError` call its effect performs (`none` when the effect does
nothing). -/
structure UseErrorStylesResult where
  className : Option String
  style : Option (List (String × String))
  setErrorCall : Option (String × RHFFieldError)
deriving DecidableEq, Repr

/-- The validation error looked up by `useErrorStyles` (index.tsx line 53):
`name ? get(errors, name) : undefined`. -/
def validationErrorFor (errors : List (String × RHFFieldError)) (name : String) :
    Option RHFFieldError :=
  if name == "" then none else jsGet errors name

/-- The pure content of `useErrorStyles` (index.tsx lines 32-67), as a
function of the props, the current `ServerErrorsContext` value, and the
form state's `errors` object.  The effect fires `setError(name, { type:
'server', message: serverError })` when the server error entry is truthy (a
non-empty string); `className`/`style` are replaced by
`errorClassName`/`errorStyle` when a validation error exists and the
respective error prop is truthy (`errorStyle` is an object, truthy iff
present). -/
def useErrorStyles (props : UseErrorStylesProps) (serverErrors : ServerErrors)
    (errors : List (String × RHFFieldError)) : UseErrorStylesResult :=
  let serverError := jsGet serverErrors props.name
  let setErrorCall :=
    if jsTruthyStr serverError then
      some (props.name, { type := "server", message := serverError : RHFFieldError })
    else
      none
  let validationError := validationErrorFor errors props.name
  let className :=
    if validationError.isSome && jsTruthyStr props.errorClassName then
      props.errorClassName
    else
      props.className
  let style :=
    if validationError.isSome && props.errorStyle.isSome then
      props.errorStyle
    else
      props.style
  { className := className, style := style, setErrorCall := setErrorCall }

/-- Evaluation of the directive search of `setCoercion`: the first key of
`valueAsProps` present on the configuration, in table order.  Keys outside
the table (`extraProps`) are never examined. -/
theorem valueAsProps_find_eq (v : RedwoodRegisterOptions) :
    valueAsProps.find? (fun kv => hasProp v kv.fst)
      = (if v.valueAsBoolean.isSome then some ("valueAsBoolean", DataType.Boolean)
         else if v.valueAsFloat.isSome then some ("valueAsFloat", DataType.Float)
         else if v.valueAsJSON.isSome then some ("valueAsJSON", DataType.Json)
         else if v.valueAsDateTime.isSome then some ("valueAsDateTime", DataType.DateTime)
         else none) := by
  cases hB : v.valueAsBoolean <;> cases hF : v.valueAsFloat <;>
    cases hJ : v.valueAsJSON <;> cases hD : v.valueAsDateTime <;>
    simp [valueAsProps, List.find?, hasProp, hB, hF, hJ, hD]

/-- C1: when the configuration already has a truthy `valueAsNumber`, a truthy
`valueAsDate`, or a `setValueAs` function, `setCoercion` returns with the
configuration completely unchanged, for every field type. -/
theorem setCoercion_preserves_explicit_config (v : RedwoodRegisterOptions)
    (t : Option String)
    (h : jsTruthy v.valueAsNumber = true ∨ jsTruthy v.valueAsDate = true
      ∨ v.setValueAs.isSome = true) :
    setCoercion v t = v := by
  rcases h with h | h | h <;> simp [setCoercion, h]

/-- Witness for C1 at a configuration carrying a custom `setValueAs` and
field type number. -/
theorem setCoercion_preserves_explicit_config_witness :
    (jsTruthy ({ setValueAs := some (Transform.custom 7) } : RedwoodRegisterOptions).valueAsNumber = true
      ∨ jsTruthy ({ setValueAs := some (Transform.custom 7) } : RedwoodRegisterOptions).valueAsDate = true
      ∨ ({ setValueAs := some (Transform.custom 7) } : RedwoodRegisterOptions).setValueAs.isSome = true)
    ∧ setCoercion { setValueAs := some (Transform.custom 7) } (some ("number"))
        = { setValueAs := some (Transform.custom 7) } :=
  ⟨Or.inr (Or.inr (by decide)),
   setCoercion_preserves_explicit_config _ _ (Or.inr (Or.inr (by decide)))⟩

/-- C2: with no prior coercion (no truthy `valueAsNumber`/`valueAsDate`, no
`setValueAs`) and exactly one explicit directive flag carried, `setCoercion`
sets `setValueAs` to that directive's entry of the coercion function table,
for every field type, and does not set `valueAsNumber`. -/
theorem setCoercion_explicit_directive (v : RedwoodRegisterOptions)
    (t : Option String) (d : DataType)
    (h1 : jsTruthy v.valueAsNumber = false) (h2 : jsTruthy v.valueAsDate = false)
    (h3 : v.setValueAs = none)
    (h4 : carries v d = true) (h5 : ∀ d2, d2 ≠ d → carries v d2 = false) :
    (setCoercion v t).setValueAs = some (COERCION_FUNCTIONS d)
    ∧ (setCoercion v t).valueAsNumber = v.valueAsNumber := by
  cases d with
  | Boolean =>
    have c1 : v.valueAsBoolean.isSome = true := h4
    simp [setCoercion, h1, h2, h3, valueAsProps_find_eq, c1]
  | Float =>
    have c0 : v.valueAsBoolean.isSome = false := h5 DataType.Boolean (by decide)
    have c1 : v.valueAsFloat.isSome = true := h4
    simp [setCoercion, h1, h2, h3, valueAsProps_find_eq, c0, c1]
  | Json =>
    have c0 : v.valueAsBoolean.isSome = false := h5 DataType.Boolean (by decide)
    have c1 : v.valueAsFloat.isSome = false := h5 DataType.Float (by decide)
    have c2 : v.valueAsJSON.isSome = true := h4
    simp [setCoercion, h1, h2, h3, valueAsProps_find_eq, c0, c1, c2]
  | DateTime =>
    have c0 : v.valueAsBoolean.isSome = false := h5 DataType.Boolean (by decide)
    have c1 : v.valueAsFloat.isSome = false := h5 DataType.Float (by decide)
    have c2 : v.valueAsJSON.isSome = false := h5 DataType.Json (by decide)
    have c3 : v.valueAsDateTime.isSome = true := h4
    simp [setCoercion, h1, h2, h3, valueAsProps_find_eq, c0, c1, c2, c3]

/-- Witness for C2 at a configuration carrying only `valueAsJSON`, with field
type number (showing the directive wins over the type). -/
theorem setCoercion_explicit_directive_witness :
    (jsTruthy ({ valueAsJSON := some true } : RedwoodRegisterOptions).valueAsNumber = false
      ∧ jsTruthy ({ valueAsJSON := some true } : RedwoodRegisterOptions).valueAsDate = false
      ∧ ({ valueAsJSON := some true } : RedwoodRegisterOptions).setValueAs = none
      ∧ carries { valueAsJSON := some true } DataType.Json = true)
    ∧ (setCoercion { valueAsJSON := some true } (some ("number"))).setValueAs
        = some (COERCION_FUNCTIONS DataType.Json)
    ∧ (setCoercion { valueAsJSON := some true } (some ("number"))).valueAsNumber
        = ({ valueAsJSON := some true } : RedwoodRegisterOptions).valueAsNumber :=
  ⟨⟨by decide, by decide, by decide, by decide⟩,
   setCoercion_explicit_directive { valueAsJSON := some true } (some ("number"))
     DataType.Json (by decide) (by decide) (by decide) (by decide)
     (by intro d2 hd2; cases d2 <;> simp at hd2 ⊢ <;> decide)⟩

/-- C3: with no prior coercion and no explicit directive flag present, a
field of type number gets `valueAsNumber := true` and no custom `setValueAs`
transform. -/
theorem setCoercion_number_type (v : RedwoodRegisterOptions)
    (h1 : jsTruthy v.valueAsNumber = false) (h2 : jsTruthy v.valueAsDate = false)
    (h3 : v.setValueAs = none) (h4 : ∀ d, carries v d = false) :
    (setCoercion v (some ("number"))).valueAsNumber = some true
    ∧ (setCoercion v (some ("number"))).setValueAs = none := by
  have c0 : v.valueAsBoolean.isSome = false := h4 DataType.Boolean
  have c1 : v.valueAsFloat.isSome = false := h4 DataType.Float
  have c2 : v.valueAsJSON.isSome = false := h4 DataType.Json
  have c3 : v.valueAsDateTime.isSome = false := h4 DataType.DateTime
  simp [setCoercion, h1, h2, h3, valueAsProps_find_eq, c0, c1, c2, c3, jsTruthyStr]

/-- Witness for C3 at the empty configuration. -/
theorem setCoercion_number_type_witness :
    (jsTruthy ({} : RedwoodRegisterOptions).valueAsNumber = false
      ∧ jsTruthy ({} : RedwoodRegisterOptions).valueAsDate = false
      ∧ ({} : RedwoodRegisterOptions).setValueAs = none)
    ∧ (setCoercion {} (some ("number"))).valueAsNumber = some true
    ∧ (setCoercion {} (some ("number"))).setValueAs = none :=
  ⟨⟨by decide, by decide, by decide⟩,
   setCoercion_number_type {} (by decide) (by decide) (by decide)
     (by intro d; cases d <;> decide)⟩

/-- C4: with no prior coercion, no explicit directive flag, and a field type
other than number: when the type is in the input-type table, `setValueAs`
becomes the mapped directive's coercion function; when it is not, the
configuration is returned unchanged (no transform at all). -/
theorem setCoercion_input_type_mapping (v : RedwoodRegisterOptions)
    (t : String)
    (h1 : jsTruthy v.valueAsNumber = false) (h2 : jsTruthy v.valueAsDate = false)
    (h3 : v.setValueAs = none) (h4 : ∀ d, carries v d = false)
    (ht : t ≠ "number") :
    (∀ d, inputTypeToDataTypeMapping t = some d →
        (setCoercion v (some t)).setValueAs = some (COERCION_FUNCTIONS d))
    ∧ (inputTypeToDataTypeMapping t = none → setCoercion v (some t) = v) := by
  have c0 : v.valueAsBoolean.isSome = false := h4 DataType.Boolean
  have c1 : v.valueAsFloat.isSome = false := h4 DataType.Float
  have c2 : v.valueAsJSON.isSome = false := h4 DataType.Json
  have c3 : v.valueAsDateTime.isSome = false := h4 DataType.DateTime
  constructor
  · intro d hd
    have ht0 : (t == "") = false := by
      cases he : (t == "") with
      | true =>
        exfalso
        have he2 : t = "" := by simpa using he
        rw [he2] at hd
        simp [inputTypeToDataTypeMapping] at hd
      | false => rfl
    simp [setCoercion, h1, h2, h3, valueAsProps_find_eq, c0, c1, c2, c3,
      jsTruthyStr, ht0, hd, ht]
  · intro hd
    simp [setCoercion, h1, h2, h3, valueAsProps_find_eq, c0, c1, c2, c3,
      jsTruthyStr, hd, ht]

/-- Witness for C4 at the empty configuration with field type date (in the
table) and field type text (not in the table). -/
theorem setCoercion_input_type_mapping_witness :
    ((("date" : String) ≠ "number")
      ∧ inputTypeToDataTypeMapping ("date") = some DataType.DateTime
      ∧ (setCoercion {} (some ("date"))).setValueAs
          = some (COERCION_FUNCTIONS DataType.DateTime))
    ∧ ((("text" : String) ≠ "number")
      ∧ inputTypeToDataTypeMapping ("text") = none
      ∧ setCoercion {} (some ("text")) = {}) :=
  ⟨⟨by decide, by decide,
    (setCoercion_input_type_mapping {} ("date") (by decide) (by decide) (by decide)
      (by intro d; cases d <;> decide) (by decide)).1 DataType.DateTime (by decide)⟩,
   ⟨by decide, by decide,
    (setCoercion_input_type_mapping {} ("text") (by decide) (by decide) (by decide)
      (by intro d; cases d <;> decide) (by decide)).2 (by decide)⟩⟩

/-- C9: the explicit-directive branch triggers on key presence, not
truthiness: with no prior coercion, a configuration whose `valueAsBoolean`
key is present with value `false` still gets the Boolean coercion function
attached as `setValueAs`, for every field type. -/
theorem setCoercion_directive_presence_not_truthiness (v : RedwoodRegisterOptions)
    (t : Option String)
    (h1 : jsTruthy v.valueAsNumber = false) (h2 : jsTruthy v.valueAsDate = false)
    (h3 : v.setValueAs = none)
    (h4 : v.valueAsBoolean = some false) :
    (setCoercion v t).setValueAs = some (COERCION_FUNCTIONS DataType.Boolean) := by
  have c1 : v.valueAsBoolean.isSome = true := by simp [h4]
  simp [setCoercion, h1, h2, h3, valueAsProps_find_eq, c1]

/-- Witness for C9 at a configuration with only `valueAsBoolean := false` and
field type number. -/
theorem setCoercion_directive_presence_not_truthiness_witness :
    (jsTruthy ({ valueAsBoolean := some false } : RedwoodRegisterOptions).valueAsNumber = false
      ∧ jsTruthy ({ valueAsBoolean := some false } : RedwoodRegisterOptions).valueAsDate = false
      ∧ ({ valueAsBoolean := some false } : RedwoodRegisterOptions).setValueAs = none
      ∧ ({ valueAsBoolean := some false } : RedwoodRegisterOptions).valueAsBoolean = some false)
    ∧ (setCoercion { valueAsBoolean := some false } (some ("number"))).setValueAs
        = some (COERCION_FUNCTIONS DataType.Boolean) :=
  ⟨⟨by decide, by decide, by decide, by decide⟩,
   setCoercion_directive_presence_not_truthiness { valueAsBoolean := some false }
     (some ("number")) (by decide) (by decide) (by decide) (by decide)⟩

/-- Counterexample for C5: a configuration whose only directive-like key is
the unknown `valueAsIsoDuration` (not in the closed table) makes the
dispatch silently degrade to pass-through — `setCoercion` returns the
configuration unchanged with no transform attached, and no error arises
(`setCoercion` is a total function with no failure channel). -/
theorem setCoercion_unknown_directive_counterexample :
    setCoercion { extraProps := ["valueAsIsoDuration"] } none
        = { extraProps := ["valueAsIsoDuration"] }
    ∧ (setCoercion { extraProps := ["valueAsIsoDuration"] } none).setValueAs = none := by
  decide

/-- C5 amended: a directive-like key outside the closed table is not an
error: the dispatch only ever examines the four known directive keys, so
with no known flag, no prior coercion, and no coercible field type, the
configuration — whatever unknown keys it carries — is silently returned
unchanged (pass-through), and no exception path exists. -/
theorem setCoercion_unknown_directive_silent (v : RedwoodRegisterOptions)
    (h1 : jsTruthy v.valueAsNumber = false) (h2 : jsTruthy v.valueAsDate = false)
    (h3 : v.setValueAs = none) (h4 : ∀ d, carries v d = false) :
    setCoercion v none = v
    ∧ ∀ s, s ≠ "number" → inputTypeToDataTypeMapping s = none →
        setCoercion v (some s) = v := by
  have c0 : v.valueAsBoolean.isSome = false := h4 DataType.Boolean
  have c1 : v.valueAsFloat.isSome = false := h4 DataType.Float
  have c2 : v.valueAsJSON.isSome = false := h4 DataType.Json
  have c3 : v.valueAsDateTime.isSome = false := h4 DataType.DateTime
  constructor
  · simp [setCoercion, h1, h2, h3, valueAsProps_find_eq, c0, c1, c2, c3, jsTruthyStr]
  · intro s hs hmap
    simp [setCoercion, h1, h2, h3, valueAsProps_find_eq, c0, c1, c2, c3,
      jsTruthyStr, hs, hmap]

/-- Witness for the amended C5 at a configuration carrying only the unknown
key `valueAsIsoDuration`, with no type and with the unmapped type text. -/
theorem setCoercion_unknown_directive_silent_witness :
    (jsTruthy ({ extraProps := ["valueAsIsoDuration"] } : RedwoodRegisterOptions).valueAsNumber = false
      ∧ jsTruthy ({ extraProps := ["valueAsIsoDuration"] } : RedwoodRegisterOptions).valueAsDate = false
      ∧ ({ extraProps := ["valueAsIsoDuration"] } : RedwoodRegisterOptions).setValueAs = none)
    ∧ setCoercion { extraProps := ["valueAsIsoDuration"] } none
        = { extraProps := ["valueAsIsoDuration"] }
    ∧ setCoercion { extraProps := ["valueAsIsoDuration"] } (some ("text"))
        = { extraProps := ["valueAsIsoDuration"] } :=
  ⟨⟨by decide, by decide, by decide⟩,
   (setCoercion_unknown_directive_silent { extraProps := ["valueAsIsoDuration"] }
     (by decide) (by decide) (by decide) (by intro d; cases d <;> decide)).1,
   (setCoercion_unknown_directive_silent { extraProps := ["valueAsIsoDuration"] }
     (by decide) (by decide) (by decide) (by intro d; cases d <;> decide)).2
     ("text") (by decide) (by decide)⟩

/-- C6: for an error prop of the full envelope shape, the server-errors
context value `Form` provides is exactly the messages map of the first
element of `graphQLErrors`; for an absent (nullish) error prop it is the
empty map. -/
theorem Form_serverErrorsContext_projection (e : FormErrorProp)
    (g : GraphQLError) (rest : List GraphQLError) (ext : GraphQLExtensions)
    (exc : GraphQLException) (m : ServerErrors)
    (h1 : e.graphQLErrors = some (g :: rest)) (h2 : g.extensions = some ext)
    (h3 : ext.exception = some exc) (h4 : exc.messages = some m) :
    serverErrorsContextValue (some e) = Except.ok m
    ∧ serverErrorsContextValue none = Except.ok [] := by
  constructor
  · simp [serverErrorsContextValue, h1, h2, h3, h4]
  · rfl

/-- Sample envelope for the C6 witness: one GraphQL error with one field
message. -/
def sampleException : GraphQLException := { messages := some [("name", "taken")] }

/-- Sample extensions object for the C6 witness. -/
def sampleExtensions : GraphQLExtensions := { exception := some sampleException }

/-- Sample GraphQL error for the C6 witness. -/
def sampleGraphQLError : GraphQLError := { extensions := some sampleExtensions }

/-- Sample error prop for the C6 witness. -/
def sampleErrorProp : FormErrorProp := { graphQLErrors := some [sampleGraphQLError] }

/-- Witness for C6 at a one-error envelope carrying one field message. -/
theorem Form_serverErrorsContext_projection_witness :
    (sampleErrorProp.graphQLErrors = some [sampleGraphQLError]
      ∧ sampleGraphQLError.extensions = some sampleExtensions
      ∧ sampleExtensions.exception = some sampleException
      ∧ sampleException.messages = some [("name", "taken")])
    ∧ serverErrorsContextValue (some sampleErrorProp) = Except.ok [("name", "taken")]
    ∧ serverErrorsContextValue none = Except.ok [] :=
  ⟨⟨by decide, by decide, by decide, by decide⟩,
   (Form_serverErrorsContext_projection sampleErrorProp sampleGraphQLError []
     sampleExtensions sampleException [("name", "taken")]
     (by decide) (by decide) (by decide) (by decide)).1,
   (Form_serverErrorsContext_projection sampleErrorProp sampleGraphQLError []
     sampleExtensions sampleException [("name", "taken")]
     (by decide) (by decide) (by decide) (by decide)).2⟩

/-- C10: a non-nullish error prop without a `graphQLErrors` array makes the
context-value computation throw a TypeError: only the error object itself is
guarded by optional chaining, not the indexing `graphQLErrors[0]`. -/
theorem Form_error_without_graphQLErrors_throws (e : FormErrorProp)
    (h : e.graphQLErrors = none) :
    serverErrorsContextValue (some e) = Except.error () := by
  simp [serverErrorsContextValue, h]

/-- Witness for C10 at a plain error object with no `graphQLErrors` key. -/
theorem Form_error_without_graphQLErrors_throws_witness :
    ({} : FormErrorProp).graphQLErrors = none
    ∧ serverErrorsContextValue (some {}) = Except.error () :=
  ⟨rfl, Form_error_without_graphQLErrors_throws {} rfl⟩

/-- C7: when the server-errors context has a non-empty entry for the field
name, `useErrorStyles` calls `setError` for that name with error type
exactly server and the entry as the message. -/
theorem useErrorStyles_injects_server_error (props : UseErrorStylesProps)
    (serverErrors : ServerErrors) (errors : List (String × RHFFieldError))
    (msg : String)
    (h1 : jsGet serverErrors props.name = some msg) (h2 : msg ≠ "") :
    (useErrorStyles props serverErrors errors).setErrorCall
      = some (props.name, { type := "server", message := some msg }) := by
  simp [useErrorStyles, h1, jsTruthyStr, h2]

/-- Witness for C7 at a context holding the message taken for field name. -/
theorem useErrorStyles_injects_server_error_witness :
    (jsGet [("name", "taken")] ({ name := "name" } : UseErrorStylesProps).name
        = some ("taken")
      ∧ ("taken" : String) ≠ "")
    ∧ (useErrorStyles { name := "name" } [("name", "taken")] []).setErrorCall
        = some (("name", { type := "server", message := some ("taken") })) :=
  ⟨⟨by decide, by decide⟩,
   useErrorStyles_injects_server_error { name := "name" } [("name", "taken")] []
     ("taken") (by decide) (by decide)⟩

/-- C8: `useErrorStyles` switches to the error styling exactly on validation
errors: when a validation error exists for the field name, a truthy
`errorClassName` replaces `className` and a present `errorStyle` replaces
`style`; when no validation error exists for the name, the passed-in
`className` and `style` are returned unchanged. -/
theorem useErrorStyles_error_styles (props : UseErrorStylesProps)
    (serverErrors : ServerErrors) (errors : List (String × RHFFieldError)) :
    ((validationErrorFor errors props.name).isSome = true →
      (jsTruthyStr props.errorClassName = true →
        (useErrorStyles props serverErrors errors).className = props.errorClassName)
      ∧ (props.errorStyle.isSome = true →
        (useErrorStyles props serverErrors errors).style = props.errorStyle))
    ∧ (validationErrorFor errors props.name = none →
      (useErrorStyles props serverErrors errors).className = props.className
      ∧ (useErrorStyles props serverErrors errors).style = props.style) := by
  constructor
  · intro hv
    constructor
    · intro hc
      simp [useErrorStyles, hv, hc]
    · intro hs
      simp [useErrorStyles, hv, hs]
  · intro hv
    constructor <;> simp [useErrorStyles, hv]

/-- Witness for C8 at a field with a required-error and both error props
supplied, and at the same props with an empty errors object. -/
theorem useErrorStyles_error_styles_witness :
    ((validationErrorFor [(("name"), { type := "required" })]
        ({ name := "name", errorClassName := some ("err"),
           errorStyle := some ([("color", "red")]), className := some ("ok"),
           style := some ([("color", "black")]) } : UseErrorStylesProps).name).isSome = true
      ∧ (useErrorStyles
          { name := "name", errorClassName := some ("err"),
            errorStyle := some ([("color", "red")]), className := some ("ok"),
            style := some ([("color", "black")]) }
          [] [(("name"), { type := "required" })]).className = some ("err")
      ∧ (useErrorStyles
          { name := "name", errorClassName := some ("err"),
            errorStyle := some ([("color", "red")]), className := some ("ok"),
            style := some ([("color", "black")]) }
          [] [(("name"), { type := "required" })]).style = some ([("color", "red")]))
    ∧ ((useErrorStyles
          { name := "name", errorClassName := some ("err"),
            errorStyle := some ([("color", "red")]), className := some ("ok"),
            style := some ([("color", "black")]) }
          [] []).className = some ("ok")
      ∧ (useErrorStyles
          { name := "name", errorClassName := some ("err"),
            errorStyle := some ([("color", "red")]), className := some ("ok"),
            style := some ([("color", "black")]) }
          [] []).style = some ([("color", "black")])) :=
  ⟨⟨by decide,
    ((useErrorStyles_error_styles
      { name := "name", errorClassName := some ("err"),
        errorStyle := some ([("color", "red")]), className := some ("ok"),
        style := some ([("color", "black")]) }
      [] [(("name"), { type := "required" })]).1 (by decide)).1 (by decide),
    ((useErrorStyles_error_styles
      { name := "name", errorClassName := some ("err"),
        errorStyle := some ([("color", "red")]), className := some ("ok"),
        style := some ([("color", "black")]) }
      [] [(("name"), { type := "required" })]).1 (by decide)).2 (by decide)⟩,
   (useErrorStyles_error_styles
      { name := "name", errorClassName := some ("err"),
        errorStyle := some ([("color", "red")]), className := some ("ok"),
        style := some ([("color", "black")]) }
      [] []).2 (by decide)⟩
